import Mathlib

/-!
Shallow embedding of the user/task CRUD service (`app/models.py`, `app/main.py`,
`app/database.py`) and proofs about its validation, uniqueness, referential
integrity and partial-update behaviour.

Conventions of the embedding:
* Database rows are records without the server-managed timestamp columns
  (`created_at` / `updated_at` are set by triggers in `database.py` and no
  claim depends on them).
* A handler is a function `DB → payload → HResult α × DB`: the first component
  is the HTTP reply (success status + body, or error status + detail string),
  the second the store after the call.  Every SQL statement in the source is
  auto-committed on its own, and a failing statement performs no write, so an
  error reply paired with the unchanged `DB` models the real error paths.
* pydantic partial-update models track "field present in the payload"
  (`dict(exclude_unset=True)`): a field of an update payload is
  `Option (Option τ)` — `none` = absent, `some none` = explicit JSON null,
  `some (some v)` = explicit value.  Code reading `payload.field` sees the
  flattened `Option τ`.
* Python `re.match` anchors at the start only, and `$` matches at the end of
  the string or just before a final newline; the regex embeddings below encode
  exactly that.
-/

/-! ### Field validators (`app/models.py`) -/

/-- Characters of the class `[a-zA-Z0-9_]` in the username pattern. -/
def usernameChar (c : Char) : Bool :=
  c.isAlpha || c.isDigit || c == '_'

/-- Python `$` (no `re.MULTILINE`): matches at position `k` iff `k` is the end
of the string or the position just before a final newline. -/
def dollarAt (cs : List Char) (k : Nat) : Bool :=
  k == cs.length || (k + 1 == cs.length && cs.getD k ' ' == '\n')

/-- `re.match(r'^[a-zA-Z0-9_]{3,50}$', s)` succeeds: some `k` between 3 and 50
characters from the class are consumed from the start and `$` matches there. -/
def reMatchUsername (s : String) : Bool :=
  (List.range 51).any fun k =>
    decide (3 ≤ k) && decide (k ≤ s.data.length) &&
    (s.data.take k).all usernameChar && dollarAt s.data k

def usernameErrMsg : String :=
  "Username должен содержать только буквы, цифры и подчеркивания, от 3 до 50 символов"

/-- `validate_username` from `app/models.py`. -/
def validate_username (username : String) : Except String String :=
  if reMatchUsername username then Except.ok username
  else Except.error usernameErrMsg

/-- Characters of the class `[a-zA-Z0-9._%+-]` (local part of the email regex). -/
def emailLocalChar (c : Char) : Bool :=
  c.isAlpha || c.isDigit || c == '.' || c == '_' || c == '%' || c == '+' || c == '-'

/-- Characters of the class `[a-zA-Z0-9.-]` (domain part of the email regex). -/
def emailDomChar (c : Char) : Bool :=
  c.isAlpha || c.isDigit || c == '.' || c == '-'

/-- Whether `[a-zA-Z0-9._%+-]+@[a-zA-Z0-9.-]+\.[a-zA-Z]{2,}` matches the first
`m` characters exactly: an `@` at some `i ≥ 1`, the final literal dot at some
`j ≥ i+2`, and a 2+-letter tail. -/
def emailBodyMatch (cs : List Char) (m : Nat) : Bool :=
  let body := cs.take m
  (List.range m).any fun i =>
    (List.range m).any fun j =>
      decide (1 ≤ i) && decide (i + 2 ≤ j) && decide (j + 3 ≤ m) &&
      (body.take i).all emailLocalChar &&
      body.getD i ' ' == '@' &&
      ((body.drop (i + 1)).take (j - i - 1)).all emailDomChar &&
      body.getD j ' ' == '.' &&
      (body.drop (j + 1)).all Char.isAlpha &&
      decide (2 ≤ m - (j + 1))

/-- `re.match(r'^[a-zA-Z0-9._%+-]+@[a-zA-Z0-9.-]+\.[a-zA-Z]{2,}$', s)` with
Python `$` semantics (end of string, or just before a final newline). -/
def reMatchEmail (s : String) : Bool :=
  let cs := s.data
  emailBodyMatch cs cs.length ||
  (decide (1 ≤ cs.length) && cs.getD (cs.length - 1) ' ' == '\n' &&
   emailBodyMatch cs (cs.length - 1))

/-- `validate_email` from `app/models.py`. -/
def validate_email (email : String) : Except String String :=
  if reMatchEmail email then Except.ok email
  else Except.error "Некорректный формат email"

/-- The whitespace set of Python `str.strip()` (`str.isspace`). -/
def pyWhitespace (c : Char) : Bool :=
  c == ' ' || c == '\t' || c == '\n' || c == '\r' || c == '\x0b' || c == '\x0c' ||
  c == '\x1c' || c == '\x1d' || c == '\x1e' || c == '\x1f' ||
  c == '\u0085' || c == '\u00a0' || c == '\u1680' ||
  ('\u2000' ≤ c && c ≤ '\u200a') ||
  c == '\u2028' || c == '\u2029' || c == '\u202f' || c == '\u205f' || c == '\u3000'

/-- Python `s.strip()`: drop whitespace from the left, then from the right. -/
def pyStrip (s : String) : String :=
  String.mk (((s.data.dropWhile pyWhitespace).reverse.dropWhile pyWhitespace).reverse)

def taskNameErrMsg : String := "Название задачи не может быть пустым"

/-- `validate_name` from `app/models.py` (the task-name validator):
`if not name.strip(): raise ...; return name.strip()`. -/
def validate_name (name : String) : Except String String :=
  if pyStrip name = "" then Except.error taskNameErrMsg
  else Except.ok (pyStrip name)

/-! ### Rows and store state -/

structure UserRow where
  id : Nat
  username : String
  email : String
  full_name : Option String
deriving DecidableEq

structure TaskRow where
  task_id : Nat
  name : String
  description : Option String
  done_flag : Bool
  user_id : Option Nat
deriving DecidableEq

/-- The relational store: the two tables plus the `SERIAL` counters. -/
structure DB where
  users : List UserRow
  tasks : List TaskRow
  nextUserId : Nat
  nextTaskId : Nat
deriving DecidableEq

def findUser (db : DB) (uid : Nat) : Option UserRow :=
  db.users.find? fun u => u.id == uid

def findTask (db : DB) (tid : Nat) : Option TaskRow :=
  db.tasks.find? fun t => t.task_id == tid

/-- Referential integrity of the store: every non-null `tasks.user_id`
references an existing user (the `REFERENCES users(id)` constraint). -/
def DB.wfB (db : DB) : Bool :=
  db.tasks.all fun t => t.user_id.all fun u => db.users.any fun usr => usr.id == u

/-! ### Store-level operations (asyncpg statements with table constraints) -/

/-- An exception raised by the asyncpg driver; the payload is `str(e)`. -/
inductive DbError where
  | uniqueViolation (msg : String)
  | foreignKeyViolation (msg : String)
  | other (msg : String)
deriving DecidableEq

/-- Python `str(e)` on a driver exception. -/
def DbError.toStr : DbError → String
  | .uniqueViolation m => m
  | .foreignKeyViolation m => m
  | .other m => m

/-- Driver text of the `users_username_key` unique-constraint violation. -/
def usernameUniqueMsg : String :=
  "duplicate key value violates unique constraint users_username_key"

/-- Driver text of the `users_email_key` unique-constraint violation. -/
def emailUniqueMsg : String :=
  "duplicate key value violates unique constraint users_email_key"

/-- Driver text of the `tasks_user_id_fkey` foreign-key violation. -/
def tasksFkMsg : String :=
  "insert or update on table tasks violates foreign key constraint tasks_user_id_fkey"

def listStartsWith (pat l : List Char) : Bool :=
  match pat, l with
  | [], _ => true
  | _ :: _, [] => false
  | p :: ps, c :: cs => p == c && listStartsWith ps cs

def listHasSub (pat : List Char) : List Char → Bool
  | [] => listStartsWith pat []
  | c :: cs => listStartsWith pat (c :: cs) || listHasSub pat cs

/-- Python `pat in s` on strings. -/
def strContains (s pat : String) : Bool :=
  listHasSub pat.data s.data

/-- `INSERT INTO users ... RETURNING *`: the store enforces the two unique
constraints of the `users` table (`database.py`). -/
def insert_user (db : DB) (username email : String) (full_name : Option String) :
    Except DbError (UserRow × DB) :=
  if db.users.any (fun u => u.username == username) then
    Except.error (DbError.uniqueViolation usernameUniqueMsg)
  else if db.users.any (fun u => u.email == email) then
    Except.error (DbError.uniqueViolation emailUniqueMsg)
  else
    let row : UserRow :=
      { id := db.nextUserId, username := username, email := email, full_name := full_name }
    Except.ok (row, { db with users := db.users ++ [row], nextUserId := db.nextUserId + 1 })

/-- `INSERT INTO tasks ... RETURNING *`: the store enforces the
`user_id REFERENCES users(id)` constraint. -/
def insert_task (db : DB) (name : String) (description : Option String)
    (done_flag : Bool) (user_id : Option Nat) : Except DbError (TaskRow × DB) :=
  if user_id.any (fun u => (findUser db u).isNone) then
    Except.error (DbError.foreignKeyViolation tasksFkMsg)
  else
    let row : TaskRow :=
      { task_id := db.nextTaskId, name := name, description := description,
        done_flag := done_flag, user_id := user_id }
    Except.ok (row, { db with tasks := db.tasks ++ [row], nextTaskId := db.nextTaskId + 1 })

/-- `COALESCE(v, col)` for a nullable column. -/
def coalesceO {α : Type} (v : Option α) (old : Option α) : Option α :=
  match v with
  | some x => some x
  | none => old

/-- The `UPDATE tasks SET name = COALESCE($1, name), description = COALESCE($2,
description), done_flag = COALESCE($3, done_flag), user_id = $4 WHERE task_id =
$5 RETURNING *` statement of `update_task`.  Note that `user_id` is written
unconditionally, with no `COALESCE`.  The store enforces the foreign-key
constraint on the new `user_id`; a failing statement writes nothing. -/
def sqlUpdateTask (db : DB) (tid : Nat) (name : Option String)
    (description : Option String) (done_flag : Option Bool) (user_id : Option Nat) :
    Except DbError (Option TaskRow × DB) :=
  if user_id.any (fun u => (findUser db u).isNone) then
    Except.error (DbError.foreignKeyViolation tasksFkMsg)
  else
    match findTask db tid with
    | none => Except.ok (none, db)
    | some t =>
      let row : TaskRow :=
        { task_id := t.task_id, name := name.getD t.name,
          description := coalesceO description t.description,
          done_flag := done_flag.getD t.done_flag, user_id := user_id }
      Except.ok (some row,
        { db with tasks := db.tasks.map fun x => if x.task_id == tid then row else x })

/-- Ordering used by `SELECT * FROM users ORDER BY id`. -/
def userLe (a b : UserRow) : Prop := a.id ≤ b.id

instance : DecidableRel userLe := fun a b => Nat.decLe a.id b.id

instance : IsTotal UserRow userLe := ⟨fun a b => Nat.le_total a.id b.id⟩

instance : IsTrans UserRow userLe := ⟨fun _ _ _ => Nat.le_trans⟩

/-- Ordering used by `SELECT * FROM tasks ORDER BY task_id`. -/
def taskLe (a b : TaskRow) : Prop := a.task_id ≤ b.task_id

instance : DecidableRel taskLe := fun a b => Nat.decLe a.task_id b.task_id

instance : IsTotal TaskRow taskLe := ⟨fun a b => Nat.le_total a.task_id b.task_id⟩

instance : IsTrans TaskRow taskLe := ⟨fun _ _ _ => Nat.le_trans⟩

/-- `SELECT * FROM users ORDER BY id`. -/
def selectUsersOrdered (db : DB) : List UserRow :=
  db.users.insertionSort userLe

/-- `SELECT * FROM tasks ORDER BY task_id`. -/
def selectTasksOrdered (db : DB) : List TaskRow :=
  db.tasks.insertionSort taskLe

/-! ### Payload schemas (`app/models.py`) and HTTP replies -/

/-- A handler reply: either a success status with a body, or an
`HTTPException` with its status code and `detail` string. -/
inductive HResult (α : Type) where
  | ok (code : Nat) (body : α)
  | err (code : Nat) (detail : String)
deriving DecidableEq

/-- `UserCreate`: both required fields plus the optional `full_name`
(the pydantic validators have already accepted the strings). -/
structure UserCreate where
  username : String
  email : String
  full_name : Option String
deriving DecidableEq

/-- `UserUpdate`: every field optional; the outer `Option` is pydantic's
"field present in the payload" marker (`exclude_unset`). -/
structure UserUpdate where
  username : Option (Option String)
  email : Option (Option String)
  full_name : Option (Option String)
deriving DecidableEq

/-- The value the handler code reads from `user_data.username`. -/
def UserUpdate.usernameVal (p : UserUpdate) : Option String := p.username.join

def UserUpdate.emailVal (p : UserUpdate) : Option String := p.email.join

def UserUpdate.full_nameVal (p : UserUpdate) : Option String := p.full_name.join

/-- `user_data.dict(exclude_unset=True)` is non-empty. -/
def UserUpdate.hasSet (p : UserUpdate) : Bool :=
  p.username.isSome || p.email.isSome || p.full_name.isSome

/-- `TaskCreate` (validators already applied at parse time). -/
structure TaskCreate where
  name : String
  description : Option String
  done_flag : Bool
  user_id : Option Nat
deriving DecidableEq

/-- `TaskUpdate`: every field optional, with the presence marker. -/
structure TaskUpdate where
  name : Option (Option String)
  description : Option (Option String)
  done_flag : Option (Option Bool)
  user_id : Option (Option Nat)
deriving DecidableEq

def TaskUpdate.nameVal (p : TaskUpdate) : Option String := p.name.join

def TaskUpdate.descriptionVal (p : TaskUpdate) : Option String := p.description.join

def TaskUpdate.done_flagVal (p : TaskUpdate) : Option Bool := p.done_flag.join

def TaskUpdate.user_idVal (p : TaskUpdate) : Option Nat := p.user_id.join

/-- `task_data.dict(exclude_unset=True)` is non-empty. -/
def TaskUpdate.hasSet (p : TaskUpdate) : Bool :=
  p.name.isSome || p.description.isSome || p.done_flag.isSome || p.user_id.isSome

/-- Python truthiness of an `Optional[str]`: `None` and `""` are falsy. -/
def truthyStr : Option String → Bool
  | none => false
  | some s => !(s == "")

/-- Python truthiness of an `Optional[int]`: `None` and `0` are falsy. -/
def truthyInt : Option Nat → Bool
  | none => false
  | some n => !(n == 0)

/-! ### Request handlers (`app/main.py`) -/

/-- `GET /users`: the body of the `try` block given the outcome of
`db.fetch(...)`; an unexpected driver exception is re-raised as
`HTTPException(500, detail=str(e))`. -/
def run_get_users (fetched : Except DbError (List UserRow)) : HResult (List UserRow) :=
  match fetched with
  | Except.ok rows => HResult.ok 200 rows
  | Except.error e => HResult.err 500 e.toStr

/-- `GET /users` on a store that answers the query. -/
def get_users (db : DB) : HResult (List UserRow) :=
  run_get_users (Except.ok (selectUsersOrdered db))

/-- `GET /tasks` (same shape as `get_users`). -/
def run_get_tasks (fetched : Except DbError (List TaskRow)) : HResult (List TaskRow) :=
  match fetched with
  | Except.ok rows => HResult.ok 200 rows
  | Except.error e => HResult.err 500 e.toStr

def get_tasks (db : DB) : HResult (List TaskRow) :=
  run_get_tasks (Except.ok (selectTasksOrdered db))

/-- `POST /users`: insert, mapping `UniqueViolationError` to 409 with a
message chosen by `"username" in str(e)` / `"email" in str(e)`, and any other
exception to 500 with `detail=str(e)`. -/
def create_user (db : DB) (p : UserCreate) : HResult UserRow × DB :=
  match insert_user db p.username p.email p.full_name with
  | Except.ok (row, db') => (HResult.ok 201 row, db')
  | Except.error (DbError.uniqueViolation m) =>
    let d :=
      if strContains m "username" then "Пользователь с таким username уже существует"
      else if strContains m "email" then "Пользователь с таким email уже существует"
      else "Пользователь с такими данными уже существует"
    (HResult.err 409 d, db)
  | Except.error e => (HResult.err 500 e.toStr, db)

/-- `PUT /users/{user_id}`: 404 check, empty-payload check, the two
truthiness-guarded uniqueness pre-checks, then the `COALESCE` update. -/
def update_user (db : DB) (uid : Nat) (p : UserUpdate) : HResult UserRow × DB :=
  match findUser db uid with
  | none => (HResult.err 404 "Пользователь не найден", db)
  | some existing =>
    if !p.hasSet then (HResult.err 400 "Нет данных для обновления", db)
    else if truthyStr p.usernameVal && (p.usernameVal.getD "") != existing.username &&
        db.users.any (fun x => x.username == p.usernameVal.getD "" && x.id != uid) then
      (HResult.err 409 "Пользователь с таким username уже существует", db)
    else if truthyStr p.emailVal && (p.emailVal.getD "") != existing.email &&
        db.users.any (fun x => x.email == p.emailVal.getD "" && x.id != uid) then
      (HResult.err 409 "Пользователь с таким email уже существует", db)
    else
      let row : UserRow :=
        { id := existing.id, username := p.usernameVal.getD existing.username,
          email := p.emailVal.getD existing.email,
          full_name := coalesceO p.full_nameVal existing.full_name }
      (HResult.ok 200 row,
        { db with users := db.users.map fun x => if x.id == uid then row else x })

/-- `DELETE /users/{user_id}`: 404 check, then the dependent-tasks conflict
check, then the delete (route status 204). -/
def delete_user (db : DB) (uid : Nat) : HResult Unit × DB :=
  match findUser db uid with
  | none => (HResult.err 404 "Пользователь не найден", db)
  | some _ =>
    if db.tasks.any (fun t => t.user_id == some uid) then
      (HResult.err 409 "Невозможно удалить пользователя с задачами", db)
    else
      (HResult.ok 204 (), { db with users := db.users.filter fun u => u.id != uid })

/-- `POST /tasks`: the user-existence pre-check runs only when
`task_data.user_id` is truthy (skipped for `None` and for `0`); driver
exceptions other than `HTTPException` become 500 with `detail=str(e)`. -/
def create_task (db : DB) (p : TaskCreate) : HResult TaskRow × DB :=
  if truthyInt p.user_id && (findUser db (p.user_id.getD 0)).isNone then
    (HResult.err 422 "Указанный пользователь не существует", db)
  else
    match insert_task db p.name p.description p.done_flag p.user_id with
    | Except.ok (row, db') => (HResult.ok 201 row, db')
    | Except.error e => (HResult.err 500 e.toStr, db)

/-- `PUT /tasks/{task_id}`: 404 check, empty-payload check, the guarded
user-existence pre-check (`user_id is not None`, `!= existing`, truthy), then
the SQL update; `row` is `None` only if the task vanished between the two
statements, in which case `row['task_id']` raises and the catch-all answers
500. -/
def update_task (db : DB) (tid : Nat) (p : TaskUpdate) : HResult TaskRow × DB :=
  match findTask db tid with
  | none => (HResult.err 404 "Задача не найдена", db)
  | some existing =>
    if !p.hasSet then (HResult.err 400 "Нет данных для обновления", db)
    else if p.user_idVal.isSome && p.user_idVal != existing.user_id &&
        truthyInt p.user_idVal && (findUser db (p.user_idVal.getD 0)).isNone then
      (HResult.err 422 "Указанный пользователь не существует", db)
    else
      match sqlUpdateTask db tid p.nameVal p.descriptionVal p.done_flagVal p.user_idVal with
      | Except.ok (some row, db') => (HResult.ok 200 row, db')
      | Except.ok (none, db') =>
        (HResult.err 500 "'NoneType' object is not subscriptable", db')
      | Except.error e => (HResult.err 500 e.toStr, db)

/-- `DELETE /tasks/{task_id}`: 404 check, then the delete (route status 204). -/
def delete_task (db : DB) (tid : Nat) : HResult Unit × DB :=
  match findTask db tid with
  | none => (HResult.err 404 "Задача не найдена", db)
  | some _ =>
    (HResult.ok 204 (), { db with tasks := db.tasks.filter fun t => t.task_id != tid })

/-- Modelled from the spec's words, for comparison with `validate_username`:
a whole-string match of `^[A-Za-z0-9_]{3,50}$`. -/
def usernameWholeMatch (s : String) : Bool :=
  decide (3 ≤ s.data.length) && decide (s.data.length ≤ 50) && s.data.all usernameChar

/-- A concrete store: one user `alice` and one task assigned to her. -/
def db0 : DB :=
  { users := [{ id := 1, username := "alice", email := "a@x.com", full_name := none }],
    tasks := [{ task_id := 1, name := "Ship it", description := none,
                done_flag := false, user_id := some 1 }],
    nextUserId := 2, nextTaskId := 2 }

/-- The freshly migrated, empty store. -/
def dbEmpty : DB :=
  { users := [], tasks := [], nextUserId := 1, nextTaskId := 1 }

/-! ### Helper lemmas -/

theorem list_take_getD_decomp {α : Type} (l : List α) (k : Nat) (d : α)
    (h : k + 1 = l.length) : l = l.take k ++ [l.getD k d] := by
  induction l generalizing k with
  | nil => simp at h
  | cons c cs ih =>
    cases k with
    | zero =>
      simp only [List.length_cons] at h
      have h0 : cs.length = 0 := by omega
      have hnil : cs = [] := List.length_eq_zero.mp h0
      subst hnil
      rfl
    | succ k =>
      simp only [List.length_cons] at h
      have h' : k + 1 = cs.length := by omega
      have hrec := ih k h'
      simp only [List.take_succ_cons, List.getD_cons_succ, List.cons_append]
      exact congrArg (c :: ·) hrec

theorem list_getD_append_len {α : Type} (l1 l2 : List α) (c d : α) :
    (l1 ++ c :: l2).getD l1.length d = c := by
  induction l1 with
  | nil => rfl
  | cons a as ih => simpa using ih

theorem dropWhile_head_not {α : Type} (p : α → Bool) (l : List α) (a : α)
    (h : (l.dropWhile p).head? = some a) : p a = false := by
  induction l with
  | nil => simp at h
  | cons c cs ih =>
    by_cases hc : p c
    · rw [List.dropWhile_cons_of_pos hc] at h
      exact ih h
    · rw [List.dropWhile_cons_of_neg hc] at h
      simp only [List.head?_cons, Option.some.injEq] at h
      subst h
      exact Bool.eq_false_iff.mpr hc

theorem dropWhile_fixpoint {α : Type} (p : α → Bool) (l : List α) :
    (l.dropWhile p).dropWhile p = l.dropWhile p := by
  cases hd : l.dropWhile p with
  | nil => rfl
  | cons a as =>
    have ha : p a = false := by
      apply dropWhile_head_not p l
      rw [hd]
      rfl
    rw [List.dropWhile_cons_of_neg (by simp [ha])]

theorem length_dropWhile_le' {α : Type} (p : α → Bool) (l : List α) :
    (l.dropWhile p).length ≤ l.length := by
  induction l with
  | nil => simp
  | cons c cs ih =>
    by_cases hc : p c
    · rw [List.dropWhile_cons_of_pos hc]
      exact Nat.le_trans ih (Nat.le_succ _)
    · rw [List.dropWhile_cons_of_neg hc]

theorem dropWhile_take_fix {α : Type} (p : α → Bool) (l : List α)
    (h : l.dropWhile p = l) (m : Nat) : (l.take m).dropWhile p = l.take m := by
  cases l with
  | nil => simp
  | cons a as =>
    cases m with
    | zero => simp
    | succ m =>
      by_cases hp : p a
      · exfalso
        rw [List.dropWhile_cons_of_pos hp] at h
        have hle := length_dropWhile_le' p as
        have := congrArg List.length h
        simp only [List.length_cons] at this
        omega
      · simp [List.take_succ_cons, List.dropWhile_cons_of_neg hp]

/-! ### Claim C7: `validate_username` versus the documented regex -/

theorem reMatchUsername_iff (s : String) :
    reMatchUsername s = true ↔
      (usernameWholeMatch s = true ∨
       ∃ t : String, s = t ++ "\n" ∧ usernameWholeMatch t = true) := by
  unfold reMatchUsername usernameWholeMatch
  rw [List.any_eq_true]
  constructor
  · rintro ⟨k, hk, hcond⟩
    rw [List.mem_range] at hk
    simp only [Bool.and_eq_true, decide_eq_true_eq] at hcond
    obtain ⟨⟨⟨h3, hle⟩, hall⟩, hdollar⟩ := hcond
    unfold dollarAt at hdollar
    rw [Bool.or_eq_true] at hdollar
    rcases hdollar with h | h
    · left
      have hk' : k = s.data.length := by rwa [beq_iff_eq] at h
      subst hk'
      simp only [Bool.and_eq_true, decide_eq_true_eq]
      refine ⟨⟨h3, by omega⟩, ?_⟩
      rw [List.take_length] at hall
      exact hall
    · right
      rw [Bool.and_eq_true] at h
      obtain ⟨hlen, hnl⟩ := h
      have hlen' : k + 1 = s.data.length := by rwa [beq_iff_eq] at hlen
      have hc : s.data.getD k ' ' = '\n' := by
        have := hnl
        rwa [beq_iff_eq] at this
      refine ⟨String.mk (s.data.take k), ?_, ?_⟩
      · apply String.ext
        rw [String.data_append]
        have hdecomp := list_take_getD_decomp s.data k ' ' hlen'
        rw [hc] at hdecomp
        exact hdecomp
      · simp only [Bool.and_eq_true, decide_eq_true_eq]
        have hlk : (s.data.take k).length = k := by
          rw [List.length_take]
          omega
        exact ⟨⟨by omega, by omega⟩, hall⟩
  · rintro (h | ⟨t, hs, ht⟩)
    · simp only [Bool.and_eq_true, decide_eq_true_eq] at h
      obtain ⟨⟨h3, hle⟩, hall⟩ := h
      refine ⟨s.data.length, List.mem_range.mpr (by omega), ?_⟩
      simp only [Bool.and_eq_true, decide_eq_true_eq]
      refine ⟨⟨⟨h3, Nat.le_refl _⟩, by rw [List.take_length]; exact hall⟩, ?_⟩
      unfold dollarAt
      simp
    · subst hs
      simp only [Bool.and_eq_true, decide_eq_true_eq] at ht
      obtain ⟨⟨h3, hle⟩, hall⟩ := ht
      have hdata : (t ++ "\n").data = t.data ++ ['\n'] := by
        rw [String.data_append]
      refine ⟨t.data.length, List.mem_range.mpr (by omega), ?_⟩
      simp only [Bool.and_eq_true, decide_eq_true_eq]
      rw [hdata]
      have htake : (t.data ++ ['\n']).take t.data.length = t.data :=
        List.take_left ..
      refine ⟨⟨⟨h3, by simp⟩, by rw [htake]; exact hall⟩, ?_⟩
      unfold dollarAt
      rw [Bool.or_eq_true]
      right
      rw [Bool.and_eq_true]
      constructor
      · simp
      · rw [beq_iff_eq]
        exact list_getD_append_len t.data [] '\n' ' '

/-- Claim C7 counterexample: `"abc\n"` is accepted by `validate_username`
(and returned verbatim, trailing newline included) although it is not a
whole-string match of `^[A-Za-z0-9_]{3,50}$`; Python's `$` also matches just
before a final newline. -/
theorem c7_counterexample :
    validate_username "abc\n" = Except.ok "abc\n" ∧
    usernameWholeMatch "abc\n" = false := by
  exact ⟨rfl, by decide⟩

/-- Claim C7 (amended): `validate_username s` succeeds, returning `s`
unchanged, iff `s` is a whole-string match of `[A-Za-z0-9_]{3,50}` or such a
match followed by one trailing newline; otherwise it fails with the
`InvalidFormat` message. -/
theorem c7_thm (s : String) :
    (validate_username s = Except.ok s ↔
      (usernameWholeMatch s = true ∨
       ∃ t : String, s = t ++ "\n" ∧ usernameWholeMatch t = true))
    ∧ (reMatchUsername s = false →
       validate_username s = Except.error usernameErrMsg) := by
  constructor
  · constructor
    · intro h
      by_cases hm : reMatchUsername s
      · exact (reMatchUsername_iff s).mp hm
      · exfalso
        simp [validate_username, hm] at h
    · intro h
      have hm := (reMatchUsername_iff s).mpr h
      simp [validate_username, hm]
  · intro hm
    simp [validate_username, hm]

/-- Witness for C7: a concrete accepted username and a concrete rejected one. -/
theorem c7_witness :
    validate_username "alice" = Except.ok "alice" ∧
    validate_username "ab" = Except.error usernameErrMsg :=
  ⟨(c7_thm "alice").1.mpr (Or.inl (by decide)),
   (c7_thm "ab").2 (by decide)⟩

/-! ### Claim C8: the task-name validator -/

/-- Claim C8: `validate_name` (the task-name validator) trims leading and
trailing whitespace — `s` is an all-whitespace prefix, then the returned
value, then an all-whitespace suffix, and the returned value itself has
whitespace at neither end — fails with the `Empty` message when the trimmed
result is empty, and otherwise returns the trimmed value. -/
theorem c8_thm (s : String) :
    (∃ pre post : List Char,
        s.data = pre ++ (pyStrip s).data ++ post ∧
        pre.all pyWhitespace = true ∧ post.all pyWhitespace = true)
    ∧ (pyStrip s).data.dropWhile pyWhitespace = (pyStrip s).data
    ∧ (pyStrip s).data.reverse.dropWhile pyWhitespace = (pyStrip s).data.reverse
    ∧ (pyStrip s = "" → validate_name s = Except.error taskNameErrMsg)
    ∧ (pyStrip s ≠ "" → validate_name s = Except.ok (pyStrip s)) := by
  refine ⟨?_, ?_, ?_, ?_, ?_⟩
  · refine ⟨s.data.takeWhile pyWhitespace,
      ((s.data.dropWhile pyWhitespace).reverse.takeWhile pyWhitespace).reverse, ?_, ?_, ?_⟩
    · have h1 : s.data.takeWhile pyWhitespace ++ s.data.dropWhile pyWhitespace = s.data :=
        List.takeWhile_append_dropWhile ..
      have h2 : (s.data.dropWhile pyWhitespace).reverse.takeWhile pyWhitespace ++
          (s.data.dropWhile pyWhitespace).reverse.dropWhile pyWhitespace =
          (s.data.dropWhile pyWhitespace).reverse :=
        List.takeWhile_append_dropWhile ..
      have h3 := congrArg List.reverse h2
      rw [List.reverse_append, List.reverse_reverse] at h3
      calc s.data = s.data.takeWhile pyWhitespace ++ s.data.dropWhile pyWhitespace := h1.symm
        _ = s.data.takeWhile pyWhitespace ++
            (((s.data.dropWhile pyWhitespace).reverse.dropWhile pyWhitespace).reverse ++
             ((s.data.dropWhile pyWhitespace).reverse.takeWhile pyWhitespace).reverse) := by
              rw [h3]
        _ = _ := by rw [← List.append_assoc]; rfl
    · rw [List.all_eq_true]
      intro x hx
      exact List.mem_takeWhile_imp hx
    · rw [List.all_reverse, List.all_eq_true]
      intro x hx
      exact List.mem_takeWhile_imp hx
  · obtain ⟨w, hw⟩ :=
      List.dropWhile_suffix (l := (s.data.dropWhile pyWhitespace).reverse) pyWhitespace
    have hw' := congrArg List.reverse hw
    rw [List.reverse_append, List.reverse_reverse] at hw'
    have hpre : (pyStrip s).data ++ w.reverse = s.data.dropWhile pyWhitespace := hw'
    have htake : (s.data.dropWhile pyWhitespace).take (pyStrip s).data.length =
        (pyStrip s).data := by
      rw [← hpre]
      exact List.take_left ..
    have hfix := dropWhile_take_fix pyWhitespace (s.data.dropWhile pyWhitespace)
      (dropWhile_fixpoint pyWhitespace s.data) (pyStrip s).data.length
    rw [htake] at hfix
    exact hfix
  · have hrev : (pyStrip s).data.reverse =
        (s.data.dropWhile pyWhitespace).reverse.dropWhile pyWhitespace := by
      show ((((s.data.dropWhile pyWhitespace).reverse.dropWhile pyWhitespace).reverse).reverse) = _
      rw [List.reverse_reverse]
    rw [hrev]
    exact dropWhile_fixpoint ..
  · intro h
    simp [validate_name, h]
  · intro h
    simp [validate_name, h]

/-- Witness for C8: a name with surrounding blanks is trimmed and accepted, a
blank-only name is rejected. -/
theorem c8_witness :
    validate_name " Ship it " = Except.ok (pyStrip " Ship it ") ∧
    pyStrip " Ship it " = "Ship it" ∧
    validate_name "   " = Except.error taskNameErrMsg :=
  ⟨(c8_thm " Ship it ").2.2.2.2 (by decide), by decide,
   (c8_thm "   ").2.2.2.1 (by decide)⟩

/-! ### Claims C1 and C2: partial task update -/

theorem wf_task_ne (db : DB) (t : TaskRow) (u : Nat) (hwf : db.wfB = true)
    (ht : t ∈ db.tasks) (hu : findUser db u = none) : t.user_id ≠ some u := by
  intro he
  unfold DB.wfB at hwf
  rw [List.all_eq_true] at hwf
  have h1 := hwf t ht
  rw [he] at h1
  simp only [Option.all_some] at h1
  rw [List.any_eq_true] at h1
  obtain ⟨usr, hm, husr⟩ := h1
  unfold findUser at hu
  rw [List.find?_eq_none] at hu
  exact hu usr hm husr

/-- Claim C1 counterexample: on `db0`, task 1 has `user_id = 1`; a PUT payload
supplying only `name` (with `user_id` absent) succeeds with 200 — and the
stored task's `user_id` has been cleared to null instead of staying `1`. -/
theorem c1_counterexample :
    findTask db0 1 = some { task_id := 1, name := "Ship it", description := none,
                            done_flag := false, user_id := some 1 }
    ∧ (update_task db0 1 { name := some (some "Renamed"), description := none,
                           done_flag := none, user_id := none }).1 =
        HResult.ok 200 { task_id := 1, name := "Renamed", description := none,
                         done_flag := false, user_id := none }
    ∧ findTask (update_task db0 1 { name := some (some "Renamed"), description := none,
                                    done_flag := none, user_id := none }).2 1 =
        some { task_id := 1, name := "Renamed", description := none,
               done_flag := false, user_id := none } :=
  ⟨rfl, rfl, rfl⟩

/-- Claim C1 (amended): for an existing task and a payload whose `user_id`
field is absent but with at least one field supplied, the PUT succeeds, the
fields other than `user_id` follow absence-means-unchanged (`COALESCE`), but
`user_id` is overwritten with the payload's `user_id` value — null when the
field is absent — so the stored `user_id` becomes null, not its prior value. -/
theorem c1_thm (db : DB) (tid : Nat) (p : TaskUpdate) (t : TaskRow)
    (hfind : findTask db tid = some t) (habs : p.user_id = none)
    (hset : p.hasSet = true) :
    update_task db tid p =
      (HResult.ok 200
        { task_id := t.task_id, name := p.nameVal.getD t.name,
          description := coalesceO p.descriptionVal t.description,
          done_flag := p.done_flagVal.getD t.done_flag, user_id := none },
       { db with tasks := db.tasks.map fun x => if x.task_id == tid then
           { task_id := t.task_id, name := p.nameVal.getD t.name,
             description := coalesceO p.descriptionVal t.description,
             done_flag := p.done_flagVal.getD t.done_flag, user_id := none } else x }) := by
  have huid : p.user_idVal = none := by simp [TaskUpdate.user_idVal, habs]
  unfold update_task
  rw [hfind]
  simp only [hset, Bool.not_true, huid, Option.isSome_none, Bool.false_and, Bool.and_false]
  rw [if_neg (by simp)]
  rw [if_neg (by simp)]
  unfold sqlUpdateTask
  rw [if_neg (by simp [Option.any_none]), hfind]

/-- Witness for C1: the amended theorem applied to the concrete store. -/
theorem c1_witness :
    update_task db0 1 { name := some (some "Renamed"), description := none,
                        done_flag := none, user_id := none } =
      (HResult.ok 200 { task_id := 1, name := "Renamed", description := none,
                        done_flag := false, user_id := none },
       { db0 with tasks := [{ task_id := 1, name := "Renamed", description := none,
                              done_flag := false, user_id := none }] }) := by
  have h := c1_thm db0 1
    { name := some (some "Renamed"), description := none,
      done_flag := none, user_id := none }
    { task_id := 1, name := "Ship it", description := none,
      done_flag := false, user_id := some 1 } rfl rfl rfl
  exact h.trans (by decide)

/-- Claim C2 counterexample: on `db0`, task 1 exists and no user has id 0,
yet a PUT setting `user_id` to 0 answers 500 with the raw foreign-key
message, not 422 `InvalidReference`. -/
theorem c2_counterexample :
    findTask db0 1 = some { task_id := 1, name := "Ship it", description := none,
                            done_flag := false, user_id := some 1 }
    ∧ findUser db0 0 = none
    ∧ update_task db0 1 { name := none, description := none, done_flag := none,
                          user_id := some (some 0) } =
        (HResult.err 500 tasksFkMsg, db0) :=
  ⟨rfl, rfl, rfl⟩

/-- Claim C2 (amended): on a referentially intact store, a PUT setting the
task's `user_id` to a NONZERO id with no such user answers 422
`InvalidReference` and writes nothing; with id 0 the truthiness guard skips
the pre-check and the foreign-key violation surfaces as 500 (see C10). -/
theorem c2_thm (db : DB) (tid u : Nat) (p : TaskUpdate) (t : TaskRow)
    (hwf : db.wfB = true) (hfind : findTask db tid = some t)
    (hp : p.user_id = some (some u)) (hnz : u ≠ 0) (hu : findUser db u = none) :
    update_task db tid p = (HResult.err 422 "Указанный пользователь не существует", db) := by
  have hval : p.user_idVal = some u := by simp [TaskUpdate.user_idVal, hp]
  have hset : p.hasSet = true := by simp [TaskUpdate.hasSet, hp]
  have hne : t.user_id ≠ some u :=
    wf_task_ne db t u hwf (List.mem_of_find?_eq_some hfind) hu
  have hbne : (some u != t.user_id) = true := bne_iff_ne.mpr (Ne.symm hne)
  unfold update_task
  rw [hfind]
  simp only [hset, Bool.not_true, hval, Option.isSome_some, Bool.true_and]
  rw [if_neg (by simp)]
  rw [if_pos]
  rw [hbne]
  simp only [Bool.true_and, truthyInt]
  have h0 : (u == 0) = false := by simp [hnz]
  simp [h0, hu]

/-- Witness for C2: the amended theorem applied to the concrete store with the
dangling nonzero user id 99. -/
theorem c2_witness :
    update_task db0 1 { name := none, description := none, done_flag := none,
                        user_id := some (some 99) } =
      (HResult.err 422 "Указанный пользователь не существует", db0) :=
  c2_thm db0 1 99
    { name := none, description := none, done_flag := none, user_id := some (some 99) }
    { task_id := 1, name := "Ship it", description := none,
      done_flag := false, user_id := some 1 }
    rfl rfl rfl (by decide) rfl

/-! ### Claim C3: empty partial-update payloads -/

/-- Claim C3: for an existing user or task, a partial update whose payload
supplies no field at all answers 400 "no fields provided" and leaves the
store untouched — never a silent no-op 200. -/
theorem c3_thm (db : DB) (uid tid : Nat) (pu : UserUpdate) (pt : TaskUpdate)
    (u : UserRow) (t : TaskRow)
    (hu : findUser db uid = some u) (hpu : pu.hasSet = false)
    (ht : findTask db tid = some t) (hpt : pt.hasSet = false) :
    update_user db uid pu = (HResult.err 400 "Нет данных для обновления", db)
    ∧ update_task db tid pt = (HResult.err 400 "Нет данных для обновления", db) := by
  constructor
  · unfold update_user
    rw [hu]
    simp [hpu]
  · unfold update_task
    rw [ht]
    simp [hpt]

/-- Witness for C3: empty payloads against the concrete store. -/
theorem c3_witness :
    update_user db0 1 { username := none, email := none, full_name := none } =
      (HResult.err 400 "Нет данных для обновления", db0)
    ∧ update_task db0 1 { name := none, description := none, done_flag := none,
                          user_id := none } =
      (HResult.err 400 "Нет данных для обновления", db0) :=
  c3_thm db0 1 1
    { username := none, email := none, full_name := none }
    { name := none, description := none, done_flag := none, user_id := none }
    { id := 1, username := "alice", email := "a@x.com", full_name := none }
    { task_id := 1, name := "Ship it", description := none,
      done_flag := false, user_id := some 1 }
    rfl rfl rfl rfl

/-! ### Claim C4: username uniqueness on create -/

/-- Claim C4: creating a user whose username and email are valid and unused
succeeds with 201 and the created entity; creating a user whose username an
existing user already holds — whatever the email — answers 409 `Conflict`
(the unique constraint fires and `"username" in str(e)` picks the message)
and writes nothing. -/
theorem c4_thm (db : DB) (p : UserCreate) :
    (validate_username p.username = Except.ok p.username →
     validate_email p.email = Except.ok p.email →
     (db.users.all fun u => u.username != p.username) = true →
     (db.users.all fun u => u.email != p.email) = true →
     create_user db p =
       (HResult.ok 201 { id := db.nextUserId, username := p.username,
                         email := p.email, full_name := p.full_name },
        { db with users := db.users ++ [{ id := db.nextUserId, username := p.username,
                                          email := p.email, full_name := p.full_name }],
                  nextUserId := db.nextUserId + 1 }))
    ∧ ((db.users.any fun u => u.username == p.username) = true →
       create_user db p =
         (HResult.err 409 "Пользователь с таким username уже существует", db)) := by
  constructor
  · intro _ _ hun hem
    rw [List.all_eq_true] at hun hem
    have h1 : (db.users.any fun u => u.username == p.username) = false := by
      apply Bool.eq_false_iff.mpr
      intro hc
      rw [List.any_eq_true] at hc
      obtain ⟨x, hm, hx⟩ := hc
      have hne := hun x hm
      rw [bne_iff_ne] at hne
      exact hne (by rwa [beq_iff_eq] at hx)
    have h2 : (db.users.any fun u => u.email == p.email) = false := by
      apply Bool.eq_false_iff.mpr
      intro hc
      rw [List.any_eq_true] at hc
      obtain ⟨x, hm, hx⟩ := hc
      have hne := hem x hm
      rw [bne_iff_ne] at hne
      exact hne (by rwa [beq_iff_eq] at hx)
    unfold create_user insert_user
    rw [h1]
    simp only [Bool.false_eq_true, if_false]
    rw [h2]
    simp
  · intro hdup
    unfold create_user insert_user
    rw [hdup]
    have hc : strContains usernameUniqueMsg "username" = true := rfl
    simp [hc]

/-- Witness for C4: `alice`/`a@x.com` is created in the empty store with 201;
a second `alice` with a fresh email `b@x.com` answers 409. -/
theorem c4_witness :
    create_user dbEmpty { username := "alice", email := "a@x.com", full_name := none } =
      (HResult.ok 201 { id := 1, username := "alice", email := "a@x.com", full_name := none },
       { users := [{ id := 1, username := "alice", email := "a@x.com", full_name := none }],
         tasks := [], nextUserId := 2, nextTaskId := 1 })
    ∧ create_user db0 { username := "alice", email := "b@x.com", full_name := none } =
      (HResult.err 409 "Пользователь с таким username уже существует", db0) :=
  ⟨((c4_thm dbEmpty
      { username := "alice", email := "a@x.com", full_name := none }).1
      rfl rfl (by decide) (by decide)).trans (by decide),
   (c4_thm db0 { username := "alice", email := "b@x.com", full_name := none }).2
      (by decide)⟩

/-! ### Claim C5: deleting a nonexistent id -/

/-- Claim C5: when no user (resp. task) with the given id exists, DELETE
answers 404 "not found" with the store untouched, and never the 204 success
of the route. -/
theorem c5_thm (db : DB) (uid tid : Nat)
    (hu : findUser db uid = none) (ht : findTask db tid = none) :
    delete_user db uid = (HResult.err 404 "Пользователь не найден", db)
    ∧ delete_task db tid = (HResult.err 404 "Задача не найдена", db)
    ∧ (delete_user db uid).1 ≠ HResult.ok 204 ()
    ∧ (delete_task db tid).1 ≠ HResult.ok 204 () := by
  have h1 : delete_user db uid = (HResult.err 404 "Пользователь не найден", db) := by
    unfold delete_user
    rw [hu]
  have h2 : delete_task db tid = (HResult.err 404 "Задача не найдена", db) := by
    unfold delete_task
    rw [ht]
  exact ⟨h1, h2, by rw [h1]; simp, by rw [h2]; simp⟩

/-- Witness for C5: id 7 exists in neither table of the concrete store. -/
theorem c5_witness :
    delete_user db0 7 = (HResult.err 404 "Пользователь не найден", db0)
    ∧ delete_task db0 7 = (HResult.err 404 "Задача не найдена", db0) :=
  ⟨(c5_thm db0 7 7 rfl rfl).1, (c5_thm db0 7 7 rfl rfl).2.1⟩

/-! ### Claim C6: raw driver detail in error bodies -/

/-- Claim C6 fails on the code: the catch-alls answer
`HTTPException(500, detail=str(e))`, so the raw driver text appears verbatim
in the response body — here for `GET /users` with a failing fetch, and for
`PUT /tasks/1` whose skipped pre-check (user id 0) lets the foreign-key
violation reach the generic handler. -/
theorem c6_thm :
    run_get_users (Except.error (DbError.other "connection refused")) =
      HResult.err 500 "connection refused"
    ∧ (update_task db0 1 { name := none, description := none, done_flag := none,
                           user_id := some (some 0) }).1 =
        HResult.err 500 tasksFkMsg :=
  ⟨rfl, rfl⟩

/-! ### Claim C9: list endpoints are ordered by identity -/

/-- Claim C9: `GET /users` answers 200 with all stored users ordered by `id`
ascending, and `GET /tasks` answers 200 with all stored tasks ordered by
`task_id` ascending. -/
theorem c9_thm (db : DB) :
    get_users db = HResult.ok 200 (selectUsersOrdered db)
    ∧ (selectUsersOrdered db).Perm db.users
    ∧ List.Sorted userLe (selectUsersOrdered db)
    ∧ get_tasks db = HResult.ok 200 (selectTasksOrdered db)
    ∧ (selectTasksOrdered db).Perm db.tasks
    ∧ List.Sorted taskLe (selectTasksOrdered db) :=
  ⟨rfl, List.perm_insertionSort userLe db.users,
   List.sorted_insertionSort userLe db.users,
   rfl, List.perm_insertionSort taskLe db.tasks,
   List.sorted_insertionSort taskLe db.tasks⟩

/-! ### Claim C10: `user_id = 0` skips the reference pre-check -/

/-- Claim C10: with no user of id 0, a task create or update carrying
`user_id = 0` slips past the truthiness-based guard, reaches the store, and
the foreign-key violation comes back as 500 with the raw driver message —
not as 422 `InvalidReference`; the failing statement writes nothing. -/
theorem c10_thm (db : DB) (pc : TaskCreate) (tid : Nat) (pt : TaskUpdate)
    (t : TaskRow) (h0 : findUser db 0 = none) :
    (pc.user_id = some 0 → create_task db pc = (HResult.err 500 tasksFkMsg, db))
    ∧ (findTask db tid = some t → pt.user_id = some (some 0) →
       update_task db tid pt = (HResult.err 500 tasksFkMsg, db)) := by
  constructor
  · intro hpc
    unfold create_task insert_task
    rw [hpc]
    simp [truthyInt, h0, DbError.toStr]
  · intro hfind hpt
    have hval : pt.user_idVal = some 0 := by simp [TaskUpdate.user_idVal, hpt]
    have hset : pt.hasSet = true := by simp [TaskUpdate.hasSet, hpt]
    unfold update_task
    rw [hfind]
    simp only [hset, Bool.not_true, hval, truthyInt]
    rw [if_neg (by simp)]
    rw [if_neg (by simp)]
    unfold sqlUpdateTask
    rw [if_pos (by simp [h0])]
    simp [DbError.toStr]

/-- Witness for C10: both the create path and the update path at `user_id = 0`
on the concrete store. -/
theorem c10_witness :
    create_task db0 { name := "T", description := none, done_flag := false,
                      user_id := some 0 } =
      (HResult.err 500 tasksFkMsg, db0)
    ∧ update_task db0 1 { name := none, description := none, done_flag := none,
                          user_id := some (some 0) } =
      (HResult.err 500 tasksFkMsg, db0) := by
  have h := c10_thm db0
    { name := "T", description := none, done_flag := false, user_id := some 0 } 1
    { name := none, description := none, done_flag := none, user_id := some (some 0) }
    { task_id := 1, name := "Ship it", description := none,
      done_flag := false, user_id := some 1 }
    rfl
  exact ⟨h.1 rfl, h.2 rfl rfl⟩
